import Mathlib

/-!
Verification development for a repository of NGC launch shell scripts and
Jupyter notebooks (NeMo examples).  The two shell launch scripts and the
notebook cells that the claims refer to are embedded shallowly below:
bash guards and effectful commands become a pure function from the script
inputs (arguments, environment) to an exit status together with an ordered
trace of effects; notebook Python cells become pure Lean functions, with
exceptions modelled by Except.
-/

/-- Effects a launch script can perform, in the order the script runs them. -/
inductive Effect where
  | echoMsg (msg : String)
  | mkdirP (dir : String)
  | rsyncCopy (dst : String)
  | ngcWorkspaceUpload (ws src dst : String)
  | ngcBatchRun (name image inst result cmdline : String)
deriving DecidableEq, Repr

/-- Predicate picking out the rsync effect. -/
def isRsyncE : Effect → Bool
  | .rsyncCopy _ => true
  | _ => false

/-- Predicate picking out the ngc workspace upload effect. -/
def isUploadE : Effect → Bool
  | .ngcWorkspaceUpload _ _ _ => true
  | _ => false

/-- Predicate picking out the ngc batch run effect. -/
def isBatchE : Effect → Bool
  | .ngcBatchRun _ _ _ _ _ => true
  | _ => false

/-- Predicate picking out echo effects (the only non state-changing effect). -/
def isEchoE : Effect → Bool
  | .echoMsg _ => true
  | _ => false

/-- Index of the first effect in a trace satisfying a predicate. -/
def firstIdx (p : Effect → Bool) : List Effect → Option Nat
  | [] => none
  | e :: es => if p e then some 0 else (firstIdx p es).map (· + 1)

/-- Environment a launch script runs in: the value of the WANDB_TOKEN
environment variable (empty string models both unset and empty, matching
the bash -z test), whether setup.py exists in the current directory, and
the 13 random characters the urandom pipeline produced. -/
structure ShellEnv where
  wandbToken : String
  setupPyExists : Bool
  numId : String
deriving DecidableEq, Repr

/-- Usage message both scripts print, from the line
echo Usage: ./basename [experiment name id]. -/
def usageMsg (scriptName : String) : String :=
  "Usage: ./" ++ scriptName ++ " [experiment name id]"

namespace Script1

/-- IMAGE constant of the duration-prediction launch script. -/
def IMAGE : String := "nvidian/pytorch:19.12-py3"

/-- GPU_MEM constant (GB of GPU memory). -/
def GPU_MEM : Nat := 32

/-- NUM_GPU constant. -/
def NUM_GPU : Nat := 8

/-- WS constant, the workspace name. -/
def WS : String := "stan"

/-- WORKSPACE constant, the workspace mount point. -/
def WORKSPACE : String := "/ws"

/-- RESULT constant, the results directory. -/
def RESULT : String := "/result"

/-- DATASET_SIZE constant (LibriTTS train size). -/
def DATASET_SIZE : Nat := 354780

/-- NUM_EPOCHS constant. -/
def NUM_EPOCHS : Nat := 100

/-- batch_size, computed in bash as GPU_MEM * 6. -/
def batch_size : Nat := GPU_MEM * 6

/-- total_steps, computed in bash as
((DATASET_SIZE / (batch_size * NUM_GPU)) + 1) * NUM_EPOCHS with
truncating integer division. -/
def total_steps : Nat := ((DATASET_SIZE / (batch_size * NUM_GPU)) + 1) * NUM_EPOCHS

/-- Value of the warmup flag, written in the script as
a bash arithmetic expansion of total_steps / 50. -/
def warmup : Nat := total_steps / 50

/-- Run id, durs-lj_ then the name argument then _ then the random id. -/
def runId (nameId numId : String) : String :=
  "durs-lj_" ++ nameId ++ "_" ++ numId

/-- Destination passed to ngc workspace upload, relative to the workspace. -/
def uploadDest (id : String) : String := "nemos/" ++ id

/-- Source path of the cp -R inside the generated container command. -/
def cpSource (id : String) : String := WORKSPACE ++ "/nemos/" ++ id

/-- The container command built by the heredoc, flattened to one line. -/
def cmd (nameId id token : String) : String :=
  "nvidia-smi && apt-get update && apt-get install -y libsndfile1 && pip install -U librosa"
  ++ " && cp -R " ++ cpSource id ++ " /nemo && cd /nemo && pip install .[all]"
  ++ " && pip install -U wandb && wandb login " ++ token
  ++ " && python -m torch.distributed.launch --nproc_per_node=" ++ toString NUM_GPU
  ++ " examples/tts/fasterspeech_durs.py"
  ++ " --amp_opt_level=O2"
  ++ " --model_config=examples/tts/configs/fasterspeech-durs-lj.yaml"
  ++ " --batch_size=" ++ toString batch_size
  ++ " --train_freq=10 --eval_freq=100"
  ++ " --warmup=" ++ toString warmup
  ++ " --num_epochs=" ++ toString NUM_EPOCHS
  ++ " --work_dir=" ++ RESULT
  ++ " --wdb_name=" ++ nameId
  ++ " --wdb_tags=durs,ljspeech,opt"
  ++ " --train_dataset=/data/libritts/train.json"

/-- The whole duration-prediction launch script as a function from script
name, positional arguments and environment to exit status and effect
trace, mirroring the source order: usage guard, setup.py guard,
WANDB_TOKEN guard, then echo / mkdir / rsync / upload / batch run. -/
def run (scriptName : String) (args : List String) (env : ShellEnv) :
    Nat × List Effect :=
  if args.getD 0 "" = "" ∨ args.length ≠ 1 then
    (1, [.echoMsg (usageMsg scriptName)])
  else if env.setupPyExists = false then
    (1, [.echoMsg "Script should be ran from project root."])
  else if env.wandbToken = "" then
    (1, [.echoMsg "Please, provide WanDB token."])
  else
    let name_id := args.getD 0 ""
    let id := runId name_id env.numId
    let tmp_dir := "/tmp/nemos/" ++ id
    (0,
      [ .echoMsg "Updating source code...",
        .echoMsg ("Tmp dir: " ++ tmp_dir),
        .mkdirP tmp_dir,
        .rsyncCopy tmp_dir,
        .ngcWorkspaceUpload WS tmp_dir (uploadDest id),
        .ngcBatchRun name_id IMAGE
          ("dgx1v." ++ toString GPU_MEM ++ "g." ++ toString NUM_GPU ++ ".norm")
          RESULT (cmd name_id id env.wandbToken) ])

end Script1

namespace Script2

/-- IMAGE constant of the quartznet launch script. -/
def IMAGE : String := "nvidian/pytorch:19.12-py3"

/-- GPU_MEM constant. -/
def GPU_MEM : Nat := 32

/-- NUM_GPU constant. -/
def NUM_GPU : Nat := 8

/-- WS constant, the workspace name. -/
def WS : String := "stan"

/-- WORKSPACE constant, the workspace mount point. -/
def WORKSPACE : String := "/ws"

/-- RESULT constant. -/
def RESULT : String := "/result"

/-- Run id, the name argument then _ then the random id. -/
def runId (nameId numId : String) : String := nameId ++ "_" ++ numId

/-- Destination passed to ngc workspace upload, relative to the workspace. -/
def uploadDest (id : String) : String := "nemos/" ++ id

/-- Source path of the cp -R inside the generated container command. -/
def cpSource (id : String) : String := WORKSPACE ++ "/nemos/" ++ id

/-- The container command built by the heredoc, flattened to one line. -/
def cmd (id : String) : String :=
  "nvidia-smi && apt-get update && apt-get install -y libsndfile1"
  ++ " && cp -R " ++ cpSource id ++ " /nemo && cd /nemo && pip install .[all]"
  ++ " && python -m torch.distributed.launch --nproc_per_node=" ++ toString NUM_GPU
  ++ " examples/asr/quartznet.py"
  ++ " --num_epochs=150 --eval_batch_size=32"
  ++ " --model_config=examples/asr/configs/quartznet15x5-libritts-durs.yaml"
  ++ " --checkpoint_dir=" ++ RESULT
  ++ " --checkpoint_save_freq=10000"
  ++ " --train_dataset=/manifests/libritts/train-all.json"

/-- The whole quartznet launch script as a function from script name,
positional arguments and environment to exit status and effect trace.
The script has only the usage guard and the setup.py guard: its source
never reads WANDB_TOKEN. -/
def run (scriptName : String) (args : List String) (env : ShellEnv) :
    Nat × List Effect :=
  if args.getD 0 "" = "" ∨ args.length ≠ 1 then
    (1, [.echoMsg (usageMsg scriptName)])
  else if env.setupPyExists = false then
    (1, [.echoMsg "Script should be runned from project root."])
  else
    let name_id := args.getD 0 ""
    let id := runId name_id env.numId
    let tmp_dir := "/tmp/nemos/" ++ id
    (0,
      [ .echoMsg "Updating source code...",
        .echoMsg ("Tmp dir: " ++ tmp_dir),
        .mkdirP tmp_dir,
        .rsyncCopy tmp_dir,
        .ngcWorkspaceUpload WS tmp_dir (uploadDest id),
        .ngcBatchRun name_id IMAGE
          ("dgx1v." ++ toString GPU_MEM ++ "g." ++ toString NUM_GPU ++ ".norm")
          RESULT (cmd id) ])

end Script2

/-! Notebook model.  Python strings are modelled as lists of characters;
Python exceptions become an inductive type carried by Except. -/

/-- Model of a Python str as a list of characters. -/
abbrev PyStr := List Char

/-- Python exceptions the notebooks raise: OSError with errno ENOENT and a
filename, ValueError with a message, and IndexError from sequence
indexing. -/
inductive PyExc where
  | osErrorENOENT (path : String)
  | valueError (msg : String)
  | indexError
deriving DecidableEq, Repr

/-- Kind of exception a raise statement constructs. -/
inductive RaiseKind where
  | osErrorENOENT
  | valueError
deriving DecidableEq, BEq, Repr

/-- One raise statement owned by a notebook of this repository. -/
structure RaiseSite where
  notebook : String
  kind : RaiseKind
  detail : String
deriving DecidableEq, Repr

/-- Inventory of every raise statement in the three notebooks: two OSError
raises in the relation-extraction notebook check cell, three in the
question-answering notebook check cell, and one ValueError in the
punctuation/capitalization notebook inference decode loop. -/
def notebookRaiseSites : List RaiseSite :=
  [ ⟨"biobert_re", .osErrorENOENT, "CHECKPOINT_ENCODER"⟩,
    ⟨"biobert_re", .osErrorENOENT, "CHECKPOINT_CONFIG"⟩,
    ⟨"biobert_qa", .osErrorENOENT, "CHECKPOINT_ENCODER"⟩,
    ⟨"biobert_qa", .osErrorENOENT, "CHECKPOINT_HEAD"⟩,
    ⟨"biobert_qa", .osErrorENOENT, "CHECKPOINT_CONFIG"⟩,
    ⟨"punctuation_capitalization", .valueError,
      "Pred and words must be of the same length"⟩ ]

/-- Message of a notebook exception; for OSError this models the Python
str of OSError(errno.ENOENT, os.strerror(errno.ENOENT), path), which
contains the missing path. -/
def pyExcMessage : PyExc → String
  | .osErrorENOENT p => "[Errno 2] No such file or directory: " ++ p
  | .valueError m => m
  | .indexError => "list index out of range"

/-- One notebook existence check: Python
if not os.path.exists(p) then raise OSError(ENOENT, strerror, p). -/
def checkOne (ex : String → Bool) (p : String) : Except PyExc Unit :=
  if ex p then .ok () else .error (.osErrorENOENT p)

/-- CHECKPOINT_ENCODER of the question-answering notebook, the result of
os.path.join of the biobert base checkpoint path with BERT.pt. -/
def CHECKPOINT_ENCODER_QA : String := "./checkpoints/biobert/qa_squad/BERT.pt"

/-- CHECKPOINT_HEAD of the question-answering notebook. -/
def CHECKPOINT_HEAD_QA : String := "./checkpoints/biobert/qa_squad/TokenClassifier.pt"

/-- CHECKPOINT_CONFIG of the question-answering notebook. -/
def CHECKPOINT_CONFIG_QA : String := "./checkpoints/biobert/qa_squad/bert_config.json"

/-- Paths checked by the question-answering notebook, in check order. -/
def qaCheckedPaths : List String :=
  [CHECKPOINT_ENCODER_QA, CHECKPOINT_HEAD_QA, CHECKPOINT_CONFIG_QA]

/-- The check cell of the question-answering notebook: three sequential
existence checks, each raising OSError ENOENT with the missing path. The
filesystem is abstracted as the predicate ex. -/
def biobertQaCheckCell (ex : String → Bool) : Except PyExc Unit :=
  if ex CHECKPOINT_ENCODER_QA = false then
    .error (.osErrorENOENT CHECKPOINT_ENCODER_QA)
  else if ex CHECKPOINT_HEAD_QA = false then
    .error (.osErrorENOENT CHECKPOINT_HEAD_QA)
  else if ex CHECKPOINT_CONFIG_QA = false then
    .error (.osErrorENOENT CHECKPOINT_CONFIG_QA)
  else .ok ()

/-- CHECKPOINT_ENCODER of the relation-extraction notebook. -/
def CHECKPOINT_ENCODER_RE : String := "./checkpoints/biobert/BERT.pt"

/-- CHECKPOINT_CONFIG of the relation-extraction notebook. -/
def CHECKPOINT_CONFIG_RE : String := "./checkpoints/biobert/bert_config.json"

/-- Paths checked by the relation-extraction notebook, in check order. -/
def reCheckedPaths : List String := [CHECKPOINT_ENCODER_RE, CHECKPOINT_CONFIG_RE]

/-- The check cell of the relation-extraction notebook: two sequential
existence checks. -/
def biobertReCheckCell (ex : String → Bool) : Except PyExc Unit :=
  if ex CHECKPOINT_ENCODER_RE = false then
    .error (.osErrorENOENT CHECKPOINT_ENCODER_RE)
  else if ex CHECKPOINT_CONFIG_RE = false then
    .error (.osErrorENOENT CHECKPOINT_CONFIG_RE)
  else .ok ()

/-! Punctuation/capitalization inference decoding. -/

/-- The label string O, meaning no punctuation / no capitalization. -/
def labelO : PyStr := ['O']

/-- Model of Python str.strip with no arguments: drop whitespace from both
ends (right end first, via reverse). -/
def pyStrip (s : PyStr) : PyStr :=
  ((s.reverse.dropWhile Char.isWhitespace).reverse).dropWhile Char.isWhitespace

/-- Helper for pySplit: accumulate the current word (reversed) while
scanning the characters. -/
def pySplitAux : PyStr → PyStr → List PyStr
  | [], cur => if cur = [] then [] else [cur.reverse]
  | c :: rest, cur =>
    if c.isWhitespace then
      if cur = [] then pySplitAux rest [] else cur.reverse :: pySplitAux rest []
    else
      pySplitAux rest (c :: cur)

/-- Model of Python str.split with no arguments: split on runs of
whitespace, producing no empty words. -/
def pySplit (s : PyStr) : List PyStr := pySplitAux s []

/-- Model of Python str.capitalize: first character uppercased, all
remaining characters lowercased. -/
def pyCapitalize : PyStr → PyStr
  | [] => []
  | c :: cs => c.toUpper :: cs.map Char.toLower

/-- The per-word loop of the decode cell, indexing punct_pred and
capit_pred at the running index j exactly as the Python loop does; an
out-of-range index becomes IndexError.  The accumulator acc is the output
string being built. -/
def decodeGo (pl cl : Nat → PyStr) (punct_pred capit_pred : List Nat) :
    List PyStr → Nat → PyStr → Except PyExc PyStr
  | [], _, acc => .ok acc
  | w :: ws, j, acc =>
    match punct_pred.get? j, capit_pred.get? j with
    | some pi, some ci =>
      let punct_label := pl pi
      let capit_label := cl ci
      let w2 := if capit_label ≠ labelO then pyCapitalize w else w
      let acc2 := acc ++ w2 ++ (if punct_label ≠ labelO then punct_label else []) ++ [' ']
      decodeGo pl cl punct_pred capit_pred ws (j + 1) acc2
    | _, _ => .error .indexError

/-- The decode step of the inference cell for one query: words is
query.strip().split(); if either masked prediction list disagrees with the
word count a ValueError is raised; otherwise the per-word loop builds the
output and the printed combined string is output.strip().  The inverse
label maps are abstracted as total functions pl and cl from ids to label
strings. -/
def decodeQuery (pl cl : Nat → PyStr) (query : PyStr)
    (punct_pred capit_pred : List Nat) : Except PyExc PyStr :=
  let words := pySplit (pyStrip query)
  if punct_pred.length ≠ words.length ∨ capit_pred.length ≠ words.length then
    .error (.valueError "Pred and words must be of the same length")
  else
    match decodeGo pl cl punct_pred capit_pred words 0 [] with
    | .ok out => .ok (pyStrip out)
    | .error e => .error e

/-! Claim-side description of the combined output, following the words of
the claim: built word by word, the word capitalized when its
capitalization label is not O, immediately followed by the punctuation
label when that label is not O, words joined by single spaces, result
stripped. -/

/-- One piece of the claimed combined output. -/
def claimPiece (pl cl : Nat → PyStr) (w : PyStr) (pi ci : Nat) : PyStr :=
  (if cl ci ≠ labelO then pyCapitalize w else w)
  ++ (if pl pi ≠ labelO then pl pi else [])

/-- Pieces of the claimed combined output, one per word. -/
def claimPieces (pl cl : Nat → PyStr) :
    List PyStr → List Nat → List Nat → List PyStr
  | w :: ws, pi :: ps, ci :: cs =>
    claimPiece pl cl w pi ci :: claimPieces pl cl ws ps cs
  | _, _, _ => []

/-- Join a list of words with single spaces. -/
def joinSpace : List PyStr → PyStr
  | [] => []
  | [p] => p
  | p :: ps => p ++ [' '] ++ joinSpace ps

/-- The combined output as the claim describes it. -/
def claimCombine (pl cl : Nat → PyStr) (words : List PyStr)
    (punct_pred capit_pred : List Nat) : PyStr :=
  pyStrip (joinSpace (claimPieces pl cl words punct_pred capit_pred))

/-- Flattened form of the decode loop output: each piece followed by one
space, concatenated. -/
def flatPieces (pl cl : Nat → PyStr) :
    List PyStr → List Nat → List Nat → PyStr
  | w :: ws, pi :: ps, ci :: cs =>
    claimPiece pl cl w pi ci ++ [' '] ++ flatPieces pl cl ws ps cs
  | _, _, _ => []

/-- Concatenation of a list of pieces, each followed by one space. -/
def flatJoin : List PyStr → PyStr
  | [] => []
  | p :: ps => p ++ [' '] ++ flatJoin ps

/-- Sample inverse punctuation label map for concrete evaluations: id 1 is
a comma, everything else is O. -/
def plW : Nat → PyStr := fun n => if n = 1 then [','] else ['O']

/-- Sample inverse capitalization label map for concrete evaluations: id 1
is U, everything else is O. -/
def clW : Nat → PyStr := fun n => if n = 1 then ['U'] else ['O']

/-- Sample query for concrete evaluations, the Python string can i. -/
def qW : PyStr := ['c', 'a', 'n', ' ', 'i']

/-- Sample query for concrete evaluations, the Python string yes please. -/
def qW2 : PyStr := ['y', 'e', 's', ' ', 'p', 'l', 'e', 'a', 's', 'e']

/-! Helper lemmas about the decode loop. -/

theorem pyStrip_append_space (s : PyStr) : pyStrip (s ++ [' ']) = pyStrip s := by
  have hws : Char.isWhitespace ' ' = true := by decide
  simp [pyStrip, List.dropWhile, hws]

theorem flatPieces_eq_flatJoin (pl cl : Nat → PyStr) :
    ∀ ws ps cs, flatPieces pl cl ws ps cs = flatJoin (claimPieces pl cl ws ps cs) := by
  intro ws
  induction ws with
  | nil => intro ps cs; rfl
  | cons w ws ih =>
    intro ps cs
    cases ps with
    | nil => rfl
    | cons pi ps =>
      cases cs with
      | nil => rfl
      | cons ci cs => simp [flatPieces, claimPieces, flatJoin, ih]

theorem flatJoin_eq_joinSpace :
    ∀ ps : List PyStr, ps ≠ [] → flatJoin ps = joinSpace ps ++ [' '] := by
  intro ps
  induction ps with
  | nil => intro h; exact absurd rfl h
  | cons p ps ih =>
    intro _
    cases ps with
    | nil => simp [flatJoin, joinSpace]
    | cons q qs =>
      rw [show flatJoin (p :: q :: qs) = p ++ [' '] ++ flatJoin (q :: qs) from rfl,
        ih (by simp)]
      simp [joinSpace, List.append_assoc]

theorem pyStrip_flatJoin (ps : List PyStr) :
    pyStrip (flatJoin ps) = pyStrip (joinSpace ps) := by
  cases hp : ps with
  | nil => rfl
  | cons q qs =>
    rw [flatJoin_eq_joinSpace _ (by simp), pyStrip_append_space]

theorem decodeGo_ok (pl cl : Nat → PyStr) (pp cp : List Nat) :
    ∀ (ws : List PyStr) (j : Nat) (acc : PyStr),
      j + ws.length ≤ pp.length → j + ws.length ≤ cp.length →
      decodeGo pl cl pp cp ws j acc =
        .ok (acc ++ flatPieces pl cl ws (pp.drop j) (cp.drop j)) := by
  intro ws
  induction ws with
  | nil => intro j acc _ _; simp [decodeGo, flatPieces]
  | cons w ws ih =>
    intro j acc h1 h2
    simp only [List.length_cons] at h1 h2
    have hj1 : j < pp.length := by omega
    have hj2 : j < cp.length := by omega
    rw [List.drop_eq_getElem_cons hj1, List.drop_eq_getElem_cons hj2]
    have g1 : pp.get? j = some pp[j] := List.get?_eq_getElem? pp j ▸ by
      simp [List.getElem?_eq_getElem hj1]
    have g2 : cp.get? j = some cp[j] := List.get?_eq_getElem? cp j ▸ by
      simp [List.getElem?_eq_getElem hj2]
    rw [decodeGo, g1, g2]
    simp only
    rw [ih (j + 1) _ (by omega) (by omega)]
    simp [flatPieces, claimPiece, List.append_assoc]

/-- C6: in the punctuation/capitalization notebook inference decoding, for
every query whose masked prediction lengths equal its whitespace-split
word count, the printed combined output is built word by word: the j-th
word is capitalized exactly when its capitalization label string is not O,
immediately followed by the punctuation label string exactly when that
label is not O, with words joined by single spaces and the result
stripped. -/
theorem punct_decode_builds_claimed_output (pl cl : Nat → PyStr) (query : PyStr)
    (punct_pred capit_pred : List Nat)
    (h1 : punct_pred.length = (pySplit (pyStrip query)).length)
    (h2 : capit_pred.length = (pySplit (pyStrip query)).length) :
    decodeQuery pl cl query punct_pred capit_pred =
      .ok (claimCombine pl cl (pySplit (pyStrip query)) punct_pred capit_pred) := by
  have hguard : ¬(punct_pred.length ≠ (pySplit (pyStrip query)).length ∨
      capit_pred.length ≠ (pySplit (pyStrip query)).length) := by
    simp [h1, h2]
  have hgo := decodeGo_ok pl cl punct_pred capit_pred (pySplit (pyStrip query)) 0 []
    (by omega) (by omega)
  simp only [decodeQuery]
  rw [if_neg hguard, hgo]
  simp [claimCombine, flatPieces_eq_flatJoin, pyStrip_flatJoin]

/-- Witness for C6 at the query can i with punctuation ids 0, 1 and
capitalization ids 1, 0: the hypotheses hold and the decode output matches
the claimed construction. -/
theorem punct_decode_builds_claimed_output_witness :
    ([0, 1] : List Nat).length = (pySplit (pyStrip qW)).length
    ∧ ([1, 0] : List Nat).length = (pySplit (pyStrip qW)).length
    ∧ decodeQuery plW clW qW [0, 1] [1, 0] =
        .ok (claimCombine plW clW (pySplit (pyStrip qW)) [0, 1] [1, 0]) :=
  ⟨by decide, by decide,
    punct_decode_builds_claimed_output plW clW qW [0, 1] [1, 0] (by decide) (by decide)⟩

/-- C9: under the length-equality guard of the decode cell, every indexed
access into the masked prediction arrays is in bounds, so the per-word
loop never fails on an out-of-range index and decoding returns a result. -/
theorem punct_decode_indexing_safe (pl cl : Nat → PyStr) (query : PyStr)
    (punct_pred capit_pred : List Nat)
    (h1 : punct_pred.length = (pySplit (pyStrip query)).length)
    (h2 : capit_pred.length = (pySplit (pyStrip query)).length) :
    ∃ out, decodeQuery pl cl query punct_pred capit_pred = Except.ok out := by
  have hguard : ¬(punct_pred.length ≠ (pySplit (pyStrip query)).length ∨
      capit_pred.length ≠ (pySplit (pyStrip query)).length) := by
    simp [h1, h2]
  have hgo := decodeGo_ok pl cl punct_pred capit_pred (pySplit (pyStrip query)) 0 []
    (by omega) (by omega)
  have hval : decodeQuery pl cl query punct_pred capit_pred =
      .ok (pyStrip ([] ++ flatPieces pl cl (pySplit (pyStrip query))
        (punct_pred.drop 0) (capit_pred.drop 0))) := by
    simp only [decodeQuery]
    rw [if_neg hguard, hgo]
  exact ⟨_, hval⟩

/-- Witness for C9 at the query yes please with all prediction ids 0. -/
theorem punct_decode_indexing_safe_witness :
    ([0, 0] : List Nat).length = (pySplit (pyStrip qW2)).length
    ∧ ∃ out, decodeQuery plW clW qW2 [0, 0] [0, 0] = Except.ok out :=
  ⟨by decide,
    punct_decode_indexing_safe plW clW qW2 [0, 0] [0, 0] (by decide) (by decide)⟩

/-- C3 counterexample: a notebook code path owned by this repository
raises an exception other than the OS-level file-not-found error: the
punctuation/capitalization inference decode cell raises a ValueError on
the concrete query can i with empty prediction arrays, and the raise-site
inventory records this non-OSError raise. -/
theorem notebooks_raise_only_oserror_counterexample :
    decodeQuery plW clW qW [] [] =
      .error (.valueError "Pred and words must be of the same length")
    ∧ (⟨"punctuation_capitalization", RaiseKind.valueError,
        "Pred and words must be of the same length"⟩ : RaiseSite) ∈ notebookRaiseSites
    ∧ RaiseKind.valueError ≠ RaiseKind.osErrorENOENT :=
  ⟨rfl, by decide, by decide⟩

/-- C3 amended: every raise statement owned by the notebooks is the
OS-level file-not-found raise, except the single ValueError in the
punctuation/capitalization inference decode loop for mismatched
prediction and word lengths. -/
theorem notebooks_raise_inventory :
    notebookRaiseSites.all (fun s =>
      s.kind == RaiseKind.osErrorENOENT
      || (s.notebook == "punctuation_capitalization"
          && s.kind == RaiseKind.valueError
          && s.detail == "Pred and words must be of the same length")) = true := by
  decide

/-- C4: for each required checkpoint/config path checked by a notebook
check cell, a missing file makes the cell raise an OSError with ENOENT
whose message contains the missing path, and when all checked files exist
the cell raises nothing. -/
theorem checkpoint_checks_raise_enoent (ex : String → Bool) :
    ((∀ p, p ∈ qaCheckedPaths → ex p = true) → biobertQaCheckCell ex = .ok ())
    ∧ ((∃ p, p ∈ qaCheckedPaths ∧ ex p = false) →
        ∃ q, q ∈ qaCheckedPaths ∧ ex q = false
          ∧ biobertQaCheckCell ex = .error (.osErrorENOENT q)
          ∧ ∃ a b, pyExcMessage (.osErrorENOENT q) = a ++ q ++ b)
    ∧ ((∀ p, p ∈ reCheckedPaths → ex p = true) → biobertReCheckCell ex = .ok ())
    ∧ ((∃ p, p ∈ reCheckedPaths ∧ ex p = false) →
        ∃ q, q ∈ reCheckedPaths ∧ ex q = false
          ∧ biobertReCheckCell ex = .error (.osErrorENOENT q)
          ∧ ∃ a b, pyExcMessage (.osErrorENOENT q) = a ++ q ++ b) := by
  refine ⟨?_, ?_, ?_, ?_⟩
  · intro hall
    have hE := hall CHECKPOINT_ENCODER_QA (by simp [qaCheckedPaths])
    have hH := hall CHECKPOINT_HEAD_QA (by simp [qaCheckedPaths])
    have hC := hall CHECKPOINT_CONFIG_QA (by simp [qaCheckedPaths])
    simp [biobertQaCheckCell, hE, hH, hC]
  · intro hex
    cases hE : ex CHECKPOINT_ENCODER_QA with
    | false =>
      exact ⟨_, by simp [qaCheckedPaths], hE, by simp [biobertQaCheckCell, hE],
        "[Errno 2] No such file or directory: ", "", by simp [pyExcMessage]⟩
    | true =>
      cases hH : ex CHECKPOINT_HEAD_QA with
      | false =>
        exact ⟨_, by simp [qaCheckedPaths], hH, by simp [biobertQaCheckCell, hE, hH],
          "[Errno 2] No such file or directory: ", "", by simp [pyExcMessage]⟩
      | true =>
        cases hC : ex CHECKPOINT_CONFIG_QA with
        | false =>
          exact ⟨_, by simp [qaCheckedPaths], hC,
            by simp [biobertQaCheckCell, hE, hH, hC],
            "[Errno 2] No such file or directory: ", "", by simp [pyExcMessage]⟩
        | true =>
          obtain ⟨p, hp, hpf⟩ := hex
          simp [qaCheckedPaths] at hp
          rcases hp with rfl | rfl | rfl
          · rw [hE] at hpf; cases hpf
          · rw [hH] at hpf; cases hpf
          · rw [hC] at hpf; cases hpf
  · intro hall
    have hE := hall CHECKPOINT_ENCODER_RE (by simp [reCheckedPaths])
    have hC := hall CHECKPOINT_CONFIG_RE (by simp [reCheckedPaths])
    simp [biobertReCheckCell, hE, hC]
  · intro hex
    cases hE : ex CHECKPOINT_ENCODER_RE with
    | false =>
      exact ⟨_, by simp [reCheckedPaths], hE, by simp [biobertReCheckCell, hE],
        "[Errno 2] No such file or directory: ", "", by simp [pyExcMessage]⟩
    | true =>
      cases hC : ex CHECKPOINT_CONFIG_RE with
      | false =>
        exact ⟨_, by simp [reCheckedPaths], hC,
          by simp [biobertReCheckCell, hE, hC],
          "[Errno 2] No such file or directory: ", "", by simp [pyExcMessage]⟩
      | true =>
        obtain ⟨p, hp, hpf⟩ := hex
        simp [reCheckedPaths] at hp
        rcases hp with rfl | rfl
        · rw [hE] at hpf; cases hpf
        · rw [hC] at hpf; cases hpf

/-- Witness for C4: on a filesystem where every file exists the
question-answering check cell completes, and on a filesystem where no file
exists it raises OSError ENOENT for the encoder checkpoint path. -/
theorem checkpoint_checks_raise_enoent_witness :
    biobertQaCheckCell (fun _ => true) = .ok ()
    ∧ (∃ q, q ∈ qaCheckedPaths ∧ (fun _ : String => false) q = false
        ∧ biobertQaCheckCell (fun _ => false) = .error (.osErrorENOENT q)
        ∧ ∃ a b, pyExcMessage (.osErrorENOENT q) = a ++ q ++ b) :=
  ⟨(checkpoint_checks_raise_enoent (fun _ => true)).1 (fun _ _ => rfl),
    (checkpoint_checks_raise_enoent (fun _ => false)).2.1
      ⟨CHECKPOINT_ENCODER_QA, by simp [qaCheckedPaths], rfl⟩⟩

/-- C2: in the duration-prediction launch script the computed batch size
is GPU_MEM * 6, the computed total step count is
(DATASET_SIZE / (batch_size * NUM_GPU) + 1) * NUM_EPOCHS under truncating
integer division, the warmup value passed to the job is total_steps / 50,
and concretely these are 192, 23100 and 462. -/
theorem durs_script_numeric_flags :
    Script1.batch_size = Script1.GPU_MEM * 6
    ∧ Script1.total_steps =
        ((Script1.DATASET_SIZE / (Script1.batch_size * Script1.NUM_GPU)) + 1)
          * Script1.NUM_EPOCHS
    ∧ Script1.warmup = Script1.total_steps / 50
    ∧ Script1.batch_size = 192
    ∧ Script1.total_steps = 23100
    ∧ Script1.warmup = 462 := by decide

theorem echo_exit_one (m : String) :
    ((1, [Effect.echoMsg m]) : Nat × List Effect).fst = 1
    ∧ (∀ e ∈ ((1, [Effect.echoMsg m]) : Nat × List Effect).snd, isEchoE e = true)
    ∧ ∃ s, Effect.echoMsg s ∈ ((1, [Effect.echoMsg m]) : Nat × List Effect).snd := by
  refine ⟨rfl, ?_, ⟨m, by simp⟩⟩
  intro e he
  simp at he
  subst he
  rfl

theorem script1_run_guard (scriptName : String) (args : List String) (env : ShellEnv)
    (hg : args.getD 0 "" = "" ∨ args.length ≠ 1) :
    Script1.run scriptName args env = (1, [.echoMsg (usageMsg scriptName)]) := by
  unfold Script1.run
  rw [if_pos hg]

theorem script2_run_guard (scriptName : String) (args : List String) (env : ShellEnv)
    (hg : args.getD 0 "" = "" ∨ args.length ≠ 1) :
    Script2.run scriptName args env = (1, [.echoMsg (usageMsg scriptName)]) := by
  unfold Script2.run
  rw [if_pos hg]

theorem script1_run_nosetup (scriptName : String) (args : List String) (env : ShellEnv)
    (hg : ¬(args.getD 0 "" = "" ∨ args.length ≠ 1)) (hs : env.setupPyExists = false) :
    Script1.run scriptName args env =
      (1, [.echoMsg "Script should be ran from project root."]) := by
  unfold Script1.run
  rw [if_neg hg, if_pos hs]

theorem script2_run_nosetup (scriptName : String) (args : List String) (env : ShellEnv)
    (hg : ¬(args.getD 0 "" = "" ∨ args.length ≠ 1)) (hs : env.setupPyExists = false) :
    Script2.run scriptName args env =
      (1, [.echoMsg "Script should be runned from project root."]) := by
  unfold Script2.run
  rw [if_neg hg, if_pos hs]

theorem script1_run_valid (scriptName nameId : String) (env : ShellEnv)
    (h1 : nameId ≠ "") (h2 : env.setupPyExists = true) (h3 : env.wandbToken ≠ "") :
    Script1.run scriptName [nameId] env =
      (0, [ .echoMsg "Updating source code...",
            .echoMsg ("Tmp dir: " ++ ("/tmp/nemos/" ++ Script1.runId nameId env.numId)),
            .mkdirP ("/tmp/nemos/" ++ Script1.runId nameId env.numId),
            .rsyncCopy ("/tmp/nemos/" ++ Script1.runId nameId env.numId),
            .ngcWorkspaceUpload Script1.WS ("/tmp/nemos/" ++ Script1.runId nameId env.numId)
              (Script1.uploadDest (Script1.runId nameId env.numId)),
            .ngcBatchRun nameId Script1.IMAGE
              ("dgx1v." ++ toString Script1.GPU_MEM ++ "g."
                ++ toString Script1.NUM_GPU ++ ".norm")
              Script1.RESULT
              (Script1.cmd nameId (Script1.runId nameId env.numId) env.wandbToken) ]) := by
  have hguard : ¬(([nameId] : List String).getD 0 "" = ""
      ∨ ([nameId] : List String).length ≠ 1) := by simp [h1]
  unfold Script1.run
  rw [if_neg hguard, if_neg (by simp [h2]), if_neg h3]
  rfl

theorem script2_run_valid (scriptName nameId : String) (env : ShellEnv)
    (h1 : nameId ≠ "") (h2 : env.setupPyExists = true) :
    Script2.run scriptName [nameId] env =
      (0, [ .echoMsg "Updating source code...",
            .echoMsg ("Tmp dir: " ++ ("/tmp/nemos/" ++ Script2.runId nameId env.numId)),
            .mkdirP ("/tmp/nemos/" ++ Script2.runId nameId env.numId),
            .rsyncCopy ("/tmp/nemos/" ++ Script2.runId nameId env.numId),
            .ngcWorkspaceUpload Script2.WS ("/tmp/nemos/" ++ Script2.runId nameId env.numId)
              (Script2.uploadDest (Script2.runId nameId env.numId)),
            .ngcBatchRun nameId Script2.IMAGE
              ("dgx1v." ++ toString Script2.GPU_MEM ++ "g."
                ++ toString Script2.NUM_GPU ++ ".norm")
              Script2.RESULT
              (Script2.cmd (Script2.runId nameId env.numId)) ]) := by
  have hguard : ¬(([nameId] : List String).getD 0 "" = ""
      ∨ ([nameId] : List String).length ≠ 1) := by simp [h1]
  unfold Script2.run
  rw [if_neg hguard, if_neg (by simp [h2])]
  rfl

/-- C5: invoked with zero or more than one argument, or without setup.py
in the current directory, each launch script exits with status 1, its only
effects are printed messages, and it does print a message: no tmp
directory is created, nothing is uploaded and no batch job is launched. -/
theorem launch_scripts_fail_fast (scriptName : String) (args : List String)
    (env : ShellEnv)
    (h : args.length = 0 ∨ 1 < args.length ∨ env.setupPyExists = false) :
    ((Script1.run scriptName args env).fst = 1
      ∧ (∀ e ∈ (Script1.run scriptName args env).snd, isEchoE e = true)
      ∧ ∃ s, Effect.echoMsg s ∈ (Script1.run scriptName args env).snd)
    ∧ ((Script2.run scriptName args env).fst = 1
      ∧ (∀ e ∈ (Script2.run scriptName args env).snd, isEchoE e = true)
      ∧ ∃ s, Effect.echoMsg s ∈ (Script2.run scriptName args env).snd) := by
  have hcase : (args.getD 0 "" = "" ∨ args.length ≠ 1) ∨ env.setupPyExists = false := by
    rcases h with h0 | h1 | h2
    · left; left
      rw [List.length_eq_zero] at h0
      subst h0; rfl
    · left; right; omega
    · right; exact h2
  rcases hcase with hg | hs
  · rw [script1_run_guard scriptName args env hg, script2_run_guard scriptName args env hg]
    exact ⟨echo_exit_one _, echo_exit_one _⟩
  · by_cases hg : (args.getD 0 "" = "" ∨ args.length ≠ 1)
    · rw [script1_run_guard scriptName args env hg, script2_run_guard scriptName args env hg]
      exact ⟨echo_exit_one _, echo_exit_one _⟩
    · rw [script1_run_nosetup scriptName args env hg hs,
        script2_run_nosetup scriptName args env hg hs]
      exact ⟨echo_exit_one _, echo_exit_one _⟩

/-- Witness for C5: both scripts reject an invocation with no arguments
even when setup.py exists. -/
theorem launch_scripts_fail_fast_witness :
    (([] : List String).length = 0 ∨ 1 < ([] : List String).length
      ∨ (⟨"t", true, "n"⟩ : ShellEnv).setupPyExists = false)
    ∧ (((Script1.run "s.sh" [] ⟨"t", true, "n"⟩).fst = 1
      ∧ (∀ e ∈ (Script1.run "s.sh" [] ⟨"t", true, "n"⟩).snd, isEchoE e = true)
      ∧ ∃ s, Effect.echoMsg s ∈ (Script1.run "s.sh" [] ⟨"t", true, "n"⟩).snd)
    ∧ ((Script2.run "s.sh" [] ⟨"t", true, "n"⟩).fst = 1
      ∧ (∀ e ∈ (Script2.run "s.sh" [] ⟨"t", true, "n"⟩).snd, isEchoE e = true)
      ∧ ∃ s, Effect.echoMsg s ∈ (Script2.run "s.sh" [] ⟨"t", true, "n"⟩).snd)) :=
  ⟨Or.inl rfl, launch_scripts_fail_fast "s.sh" [] ⟨"t", true, "n"⟩ (Or.inl rfl)⟩

/-- C7: on a valid invocation each launch script performs the rsync copy
strictly before the ngc workspace upload and the upload strictly before
the ngc batch run: the first indices of these effects in the trace are
increasing. -/
theorem upload_precedes_batch_run (scriptName nameId : String) (env : ShellEnv)
    (h1 : nameId ≠ "") (h2 : env.setupPyExists = true)
    (h3 : env.wandbToken ≠ "") :
    (∃ i j k, firstIdx isRsyncE (Script1.run scriptName [nameId] env).snd = some i
      ∧ firstIdx isUploadE (Script1.run scriptName [nameId] env).snd = some j
      ∧ firstIdx isBatchE (Script1.run scriptName [nameId] env).snd = some k
      ∧ i < j ∧ j < k)
    ∧ (∃ i j k, firstIdx isRsyncE (Script2.run scriptName [nameId] env).snd = some i
      ∧ firstIdx isUploadE (Script2.run scriptName [nameId] env).snd = some j
      ∧ firstIdx isBatchE (Script2.run scriptName [nameId] env).snd = some k
      ∧ i < j ∧ j < k) := by
  rw [script1_run_valid scriptName nameId env h1 h2 h3,
    script2_run_valid scriptName nameId env h1 h2]
  constructor
  · refine ⟨3, 4, 5, ?_, ?_, ?_, by omega, by omega⟩ <;>
      simp [firstIdx, isRsyncE, isUploadE, isBatchE]
  · refine ⟨3, 4, 5, ?_, ?_, ?_, by omega, by omega⟩ <;>
      simp [firstIdx, isRsyncE, isUploadE, isBatchE]

/-- Witness for C7 at the experiment name exp with a token set and
setup.py present. -/
theorem upload_precedes_batch_run_witness :
    ((∃ i j k, firstIdx isRsyncE (Script1.run "s.sh" ["exp"] ⟨"tok", true, "n0"⟩).snd = some i
      ∧ firstIdx isUploadE (Script1.run "s.sh" ["exp"] ⟨"tok", true, "n0"⟩).snd = some j
      ∧ firstIdx isBatchE (Script1.run "s.sh" ["exp"] ⟨"tok", true, "n0"⟩).snd = some k
      ∧ i < j ∧ j < k)
    ∧ (∃ i j k, firstIdx isRsyncE (Script2.run "s.sh" ["exp"] ⟨"tok", true, "n0"⟩).snd = some i
      ∧ firstIdx isUploadE (Script2.run "s.sh" ["exp"] ⟨"tok", true, "n0"⟩).snd = some j
      ∧ firstIdx isBatchE (Script2.run "s.sh" ["exp"] ⟨"tok", true, "n0"⟩).snd = some k
      ∧ i < j ∧ j < k)) :=
  upload_precedes_batch_run "s.sh" "exp" ⟨"tok", true, "n0"⟩
    (by decide) rfl (by decide)

/-- C8: for every experiment name and random id, in both launch scripts
the destination given to ngc workspace upload, taken relative to the
workspace mount point, is exactly the source path of the cp -R inside the
generated container command. -/
theorem upload_dest_matches_cp_source (nameId numId : String) :
    Script1.cpSource (Script1.runId nameId numId) =
      Script1.WORKSPACE ++ "/" ++ Script1.uploadDest (Script1.runId nameId numId)
    ∧ Script2.cpSource (Script2.runId nameId numId) =
      Script2.WORKSPACE ++ "/" ++ Script2.uploadDest (Script2.runId nameId numId) := by
  have hw : ("/ws" : String) ++ "/nemos/" = ("/ws" ++ "/") ++ "nemos/" := by decide
  constructor
  · simp only [Script1.cpSource, Script1.uploadDest, Script1.WORKSPACE]
    rw [hw]
    exact String.append_assoc _ _ _
  · simp only [Script2.cpSource, Script2.uploadDest, Script2.WORKSPACE]
    rw [hw]
    exact String.append_assoc _ _ _

/-- C10: invoking either launch script with exactly one empty-string
argument is rejected exactly like a missing argument: same result, exit
status 1, and the usage message printed. -/
theorem empty_arg_rejected_as_missing (scriptName : String) (env : ShellEnv) :
    Script1.run scriptName [""] env = Script1.run scriptName [] env
    ∧ (Script1.run scriptName [""] env).fst = 1
    ∧ Effect.echoMsg (usageMsg scriptName) ∈ (Script1.run scriptName [""] env).snd
    ∧ Script2.run scriptName [""] env = Script2.run scriptName [] env
    ∧ (Script2.run scriptName [""] env).fst = 1
    ∧ Effect.echoMsg (usageMsg scriptName) ∈ (Script2.run scriptName [""] env).snd := by
  have a1 := script1_run_guard scriptName [""] env (Or.inl rfl)
  have a2 := script1_run_guard scriptName [] env (Or.inl rfl)
  have b1 := script2_run_guard scriptName [""] env (Or.inl rfl)
  have b2 := script2_run_guard scriptName [] env (Or.inl rfl)
  refine ⟨by rw [a1, a2], by rw [a1], by rw [a1]; simp,
    by rw [b1, b2], by rw [b1], by rw [b1]; simp⟩

/-- C1 counterexample: the quartznet launch script never checks
WANDB_TOKEN: invoked with a valid argument, setup.py present and the
token empty, it exits with status 0 and still launches the batch job, so
not every launch script requires the access-token variable. -/
theorem wandb_token_check_counterexample :
    (Script2.run "script.sh" ["exp1"] ⟨"", true, "abc1234567890"⟩).fst = 0
    ∧ ∃ e ∈ (Script2.run "script.sh" ["exp1"] ⟨"", true, "abc1234567890"⟩).snd,
        isBatchE e = true := by decide

/-- C1 amended: only the duration-prediction launch script requires
WANDB_TOKEN: with the token unset or empty it always exits with status 1
having only printed messages, while the quartznet script performs no token
check and, on an otherwise valid invocation, still launches its batch
job. -/
theorem wandb_token_required_only_by_durs_script (scriptName nameId : String)
    (args : List String) (env : ShellEnv) (htok : env.wandbToken = "") :
    (Script1.run scriptName args env).fst = 1
    ∧ (∀ e ∈ (Script1.run scriptName args env).snd, isEchoE e = true)
    ∧ (args = [nameId] → nameId ≠ "" → env.setupPyExists = true →
        ∃ e ∈ (Script2.run scriptName args env).snd, isBatchE e = true) := by
  have hrun : ∃ m, Script1.run scriptName args env = (1, [Effect.echoMsg m]) := by
    by_cases hg : (args.getD 0 "" = "" ∨ args.length ≠ 1)
    · exact ⟨_, script1_run_guard scriptName args env hg⟩
    · by_cases hs : env.setupPyExists = false
      · exact ⟨_, script1_run_nosetup scriptName args env hg hs⟩
      · refine ⟨"Please, provide WanDB token.", ?_⟩
        unfold Script1.run
        rw [if_neg hg, if_neg hs, if_pos htok]
  obtain ⟨m, hm⟩ := hrun
  rw [hm]
  refine ⟨rfl, ?_, ?_⟩
  · intro e he
    simp at he
    subst he
    rfl
  · intro ha hn hsetup
    subst ha
    rw [script2_run_valid scriptName nameId env hn hsetup]
    refine ⟨Effect.ngcBatchRun nameId Script2.IMAGE
      ("dgx1v." ++ toString Script2.GPU_MEM ++ "g."
        ++ toString Script2.NUM_GPU ++ ".norm")
      Script2.RESULT (Script2.cmd (Script2.runId nameId env.numId)), by simp, rfl⟩

/-- Witness for C1 amended at a valid invocation with the token empty. -/
theorem wandb_token_required_only_by_durs_script_witness :
    ((⟨"", true, "n0"⟩ : ShellEnv).wandbToken = "")
    ∧ ((Script1.run "s.sh" ["exp"] ⟨"", true, "n0"⟩).fst = 1
      ∧ (∀ e ∈ (Script1.run "s.sh" ["exp"] ⟨"", true, "n0"⟩).snd, isEchoE e = true)
      ∧ (["exp"] = ["exp"] → "exp" ≠ "" →
          (⟨"", true, "n0"⟩ : ShellEnv).setupPyExists = true →
          ∃ e ∈ (Script2.run "s.sh" ["exp"] ⟨"", true, "n0"⟩).snd, isBatchE e = true)) :=
  ⟨rfl, wandb_token_required_only_by_durs_script "s.sh" "exp" ["exp"]
    ⟨"", true, "n0"⟩ rfl⟩
